import Mathlib

/-!
Shallow embedding of the custom-functions metadata extraction engine
(`parseTree` and its helpers) and proofs about it.

The external TypeScript parser is modelled by taking the already-parsed
top-level declaration list directly: each declaration carries its JSDoc
tags, its structural type nodes and its (optional) source position, which
is exactly the information the engine reads from the `ts` API.
Exceptions thrown by the JavaScript runtime (`JSON.parse` on malformed
text, property access on `undefined`) are modelled with `Except String`.
-/

namespace CustomFunctionsMetadata

/-- A (line, character) pair as returned by `getLineAndCharacterOfPosition`. -/
structure Position where
  line : Nat
  character : Nat
deriving Repr, DecidableEq

/-- The structural type nodes the engine inspects: the keyword kinds listed in
`TYPE_MAPPINGS`, array types `T[]`, and type references `Name<Args>`.
A reference without type arguments is `typeReference name []`, matching the
`!typeArguments` test in the source (an absent argument list and an empty one
are treated the same way by every check, which only asks for `length === 1`). -/
inductive TypeNode where
  | numberKeyword
  | stringKeyword
  | booleanKeyword
  | anyKeyword
  | unionType
  | tupleType
  | enumKeyword
  | objectKeyword
  | voidKeyword
  | unknownKeyword
  | arrayType (elementType : TypeNode)
  | typeReference (typeName : String) (typeArguments : List TypeNode)

/-- Models `ts.SyntaxKind[node.kind]`, used by the engine both for kind comparison and
for diagnostic messages. Distinct constructors have distinct names, so comparing
names is the same as comparing kinds. -/
def kindName : TypeNode → String
  | .numberKeyword => "NumberKeyword"
  | .stringKeyword => "StringKeyword"
  | .booleanKeyword => "BooleanKeyword"
  | .anyKeyword => "AnyKeyword"
  | .unionType => "UnionType"
  | .tupleType => "TupleType"
  | .enumKeyword => "EnumKeyword"
  | .objectKeyword => "ObjectKeyword"
  | .voidKeyword => "VoidKeyword"
  | .unknownKeyword => "UnknownKeyword"
  | .arrayType _ => "ArrayType"
  | .typeReference _ _ => "TypeReference"

/-- A JavaScript value as produced by `JSON.parse` of an enum member
initializer; only the literal shapes relevant to the engine are modelled. -/
inductive JsValue where
  | num (n : Int)
  | str (s : String)
  | bool (b : Bool)
deriving Repr, DecidableEq

def typeofIsNumber : JsValue → Bool
  | .num _ => true
  | _ => false

def typeofIsString : JsValue → Bool
  | .str _ => true
  | _ => false

def isAsciiDigit (c : Char) : Bool := '0' ≤ c && c ≤ '9'

def isJsSpace (c : Char) : Bool := c == ' ' || c == '\t' || c == '\n' || c == '\r'

/-- ASCII case folding (kernel-computable model of `toLocaleLowerCase`). -/
def jsToLower (s : String) : String := ⟨s.toList.map Char.toLower⟩

/-- ASCII case folding (kernel-computable model of `toLocaleUpperCase`). -/
def jsToUpper (s : String) : String := ⟨s.toList.map Char.toUpper⟩

/-- Models `s.trim()` on ASCII whitespace. -/
def jsTrim (s : String) : String :=
  ⟨((s.toList.dropWhile isJsSpace).reverse.dropWhile isJsSpace).reverse⟩

/-- One pass implementing `replace(/\r\n|\r/g, "\n")`. -/
def stripCRAux : List Char → List Char
  | [] => []
  | '\r' :: '\n' :: rest => '\n' :: stripCRAux rest
  | '\r' :: rest => '\n' :: stripCRAux rest
  | c :: rest => c :: stripCRAux rest

/-- Models `text.split(" ")` (JavaScript semantics: splitting the empty string gives
`[""]`). -/
def splitOnSpaceAux : List Char → List Char → List String
  | acc, [] => [⟨acc.reverse⟩]
  | acc, ' ' :: rest => String.mk acc.reverse :: splitOnSpaceAux [] rest
  | acc, c :: rest => splitOnSpaceAux (c :: acc) rest

def splitOnSpace (s : String) : List String := splitOnSpaceAux [] s.toList

/-- Digits-only parse; empty input is a failure. -/
def parseDigits (cs : List Char) : Option Nat :=
  match cs with
  | [] => none
  | _ =>
    if cs.all isAsciiDigit then
      some (cs.foldl (fun a c => a * 10 + (c.toNat - '0'.toNat)) 0)
    else none

/-- Models the JavaScript `Number(text)` conversion on initializer texts:
the empty (trimmed) string converts to `0`, signed decimal integer literals
convert, anything else is `NaN` (`none`). -/
def jsToNumber (s : String) : Option Int :=
  let t := jsTrim s
  if t = "" then some 0
  else
    match t.toList with
    | '-' :: rest => (parseDigits rest).map (fun n => -(n : Int))
    | cs => (parseDigits cs).map (fun n => (n : Int))

/-- Models `JSON.parse` on the literal forms occurring as enum member
initializers: decimal integer literals, double-quoted strings without escapes,
and `true`/`false`. Any other text makes `JSON.parse` throw (`none`). -/
def jsonParse (s : String) : Option JsValue :=
  let t := jsTrim s
  if t = "true" then some (.bool true)
  else if t = "false" then some (.bool false)
  else
    match t.toList with
    | '-' :: rest => (parseDigits rest).map (fun n => JsValue.num (-(n : Int)))
    | '"' :: rest =>
      match rest.getLast? with
      | some '"' =>
        let body := rest.dropLast
        if body.all (fun c => c != '"' && c != '\\') then some (.str ⟨body⟩)
        else none
      | _ => none
    | cs => (parseDigits cs).map JsValue.num

/-- Whether an exception-modelling computation finished normally. -/
def exceptIsOk {α : Type} : Except String α → Bool
  | .ok _ => true
  | .error _ => false

/-- JavaScript object lookup on a model of a string-keyed dictionary;
`objGet` finds the most recent assignment (assignments prepend). -/
def objGet {α : Type} (m : List (String × α)) (k : String) : Option α :=
  (m.find? (fun kv => kv.1 == k)).map (fun kv => kv.2)

/-- Models `s.slice(a, b)` on an ASCII-compatible model of JS strings. -/
def jsSlice (s : String) (a b : Nat) : String :=
  ⟨(s.toList.drop a).take (b - a)⟩

def countChar (s : String) (c : Char) : Nat :=
  (s.toList.filter (fun x => x == c)).length

-- ---------------------------------------------------------------------------
-- JSDoc tag names (the constants of the source file)
-- ---------------------------------------------------------------------------

def CANCELABLE : String := "cancelable"
def CAPTURESCALLINGOBJECT : String := "capturescallingobject"
def CUSTOM_ENUM : String := "customenum"
def CUSTOM_FUNCTION : String := "customfunction"
def EXCLUDEFROMAUTOCOMPLETE : String := "excludefromautocomplete"
def HELPURL_PARAM : String := "helpurl"
def LINKEDENTITYLOADSERVICE : String := "linkedentityloadservice"
def REQUIRESADDRESS : String := "requiresaddress"
def REQUIRESPARAMETERADDRESSES : String := "requiresparameteraddresses"
def STREAMING : String := "streaming"
def VOLATILE : String := "volatile"

/-- The lookup `TYPE_MAPPINGS[node.kind]`: `none` models an `undefined` result. -/
def TYPE_MAPPINGS : TypeNode → Option String
  | .numberKeyword => some "number"
  | .stringKeyword => some "string"
  | .booleanKeyword => some "boolean"
  | .anyKeyword => some "any"
  | .unionType => some "any"
  | .tupleType => some "any"
  | .enumKeyword => some "any"
  | .objectKeyword => some "any"
  | .voidKeyword => some "any"
  | .unknownKeyword => some "any"
  | .arrayType _ => none
  | .typeReference _ _ => none

def TYPE_CUSTOM_FUNCTIONS_STREAMING (s : String) : Bool :=
  s == "customfunctions.streaminghandler" || s == "customfunctions.streaminginvocation"

def TYPE_CUSTOM_FUNCTION_CANCELABLE (s : String) : Bool :=
  s == "customfunctions.cancelablehandler" || s == "customfunctions.cancelableinvocation"

def TYPE_CUSTOM_FUNCTION_INVOCATION : String := "customfunctions.invocation"

/-- The lookup `CELLVALUETYPE_MAPPINGS[name]`. -/
def CELLVALUETYPE_MAPPINGS (name : String) : Option String :=
  if name == "Excel.CellValue" then some "cellvalue"
  else if name == "Excel.BooleanCellValue" then some "booleancellvalue"
  else if name == "Excel.DoubleCellValue" then some "doublecellvalue"
  else if name == "Excel.EntityCellValue" then some "entitycellvalue"
  else if name == "Excel.ErrorCellValue" then some "errorcellvalue"
  else if name == "Excel.FormattedNumberCellValue" then some "formattednumbercellvalue"
  else if name == "Excel.LinkedEntityCellValue" then some "linkedentitycellvalue"
  else if name == "Excel.LocalImageCellValue" then some "localimagecellvalue"
  else if name == "Excel.StringCellValue" then some "stringcellvalue"
  else if name == "Excel.WebImageCellValue" then some "webimagecellvalue"
  else if name == "Excel.ArrayCellValue" then some "unsupported"
  else if name == "Excel.EmptyCellValue" then some "unsupported"
  else if name == "Excel.ReferenceCellValue" then some "unsupported"
  else if name == "Excel.ValueTypeNotAvailableCellValue" then some "unsupported"
  else none

/-- The list `Object.values(CELLVALUETYPE_MAPPINGS)`, in key order. -/
def CELLVALUETYPE_MAPPINGS_VALUES : List String :=
  ["cellvalue", "booleancellvalue", "doublecellvalue", "entitycellvalue",
   "errorcellvalue", "formattednumbercellvalue", "linkedentitycellvalue",
   "localimagecellvalue", "stringcellvalue", "webimagecellvalue",
   "unsupported", "unsupported", "unsupported", "unsupported"]

/-- The lookup `CELLVALUETYPE_TO_BASICTYPE_MAPPINGS[cellValue]`. -/
def CELLVALUETYPE_TO_BASICTYPE_MAPPINGS (cellValue : String) : Option String :=
  if cellValue == "cellvalue" then some "any"
  else if cellValue == "booleancellvalue" then some "boolean"
  else if cellValue == "doublecellvalue" then some "number"
  else if cellValue == "entitycellvalue" then some "any"
  else if cellValue == "errorcellvalue" then some "any"
  else if cellValue == "formattednumbercellvalue" then some "number"
  else if cellValue == "linkedentitycellvalue" then some "any"
  else if cellValue == "localimagecellvalue" then some "any"
  else if cellValue == "stringcellvalue" then some "string"
  else if cellValue == "webimagecellvalue" then some "any"
  else none

-- ---------------------------------------------------------------------------
-- Output data model (fields that the source deletes when defaulted are
-- modelled as `Option`, with `none` for a deleted/`undefined` field).
-- ---------------------------------------------------------------------------

structure IFunctionParameter where
  name : String
  description : Option String
  type : Option String
  cellValueType : Option String
  dimensionality : Option String
  optional : Option Bool
  repeating : Option Bool
  customEnumType : Option String
deriving Repr, DecidableEq

structure IParameterType where
  type : Option String
  customEnumType : Option String
  cellValueType : Option String
deriving Repr, DecidableEq

structure IFunctionResult where
  type : Option String
  dimensionality : Option String
deriving Repr, DecidableEq

/-- The ten option flags, before the per-field deletion of false flags (which
only affects serialization, not the flag values). -/
structure IFunctionOptions where
  cancelable : Bool
  requiresAddress : Bool
  requiresStreamAddress : Bool
  stream : Bool
  volatile : Bool
  requiresParameterAddresses : Bool
  requiresStreamParameterAddresses : Bool
  excludeFromAutoComplete : Bool
  linkedEntityLoadService : Bool
  capturesCallingObject : Bool
deriving Repr, DecidableEq

structure IFunction where
  id : String
  name : String
  description : Option String
  helpUrl : Option String
  parameters : List IFunctionParameter
  result : IFunctionResult
  options : Option IFunctionOptions
deriving Repr, DecidableEq

structure IEnumValue where
  name : String
  value : JsValue
  tooltip : String
deriving Repr, DecidableEq

structure IEnum where
  id : String
  type : String
  values : List IEnumValue
deriving Repr, DecidableEq

structure IFunctionExtras where
  errors : List String
  javascriptFunctionName : String
deriving Repr, DecidableEq

structure IAssociate where
  sourceFileName : String
  functionName : String
  id : String
deriving Repr, DecidableEq

structure IParseTreeResult where
  associate : List IAssociate
  extras : List IFunctionExtras
  functions : List IFunction
  enums : List IEnum
deriving Repr, DecidableEq

/-- The value stored in `jsDocParamTypeInfo`; fields the source leaves
`undefined` are `none`. -/
structure IJsDocParamType where
  type : String
  returnType : Option String
  dimensionality : Option String
deriving Repr, DecidableEq

-- ---------------------------------------------------------------------------
-- Input declarations (the view of the syntax tree the engine reads)
-- ---------------------------------------------------------------------------

/-- One JSDoc tag as seen through `ts.getJSDocTags`: its name and its comment
text (`""` models an absent comment, matching `tag?.comment?.toString() || ""`). -/
structure JSDocTag where
  tagName : String
  comment : String

/-- A JSDoc `@param` tag's type expression: its raw text including the braces
(`getFullText()`) and the parsed type node (`ts.getJSDocType`). -/
structure JSDocTypeExpr where
  fullText : String
  type : TypeNode

/-- One JSDoc `@param` tag as seen through `getAllJSDocTagsOfKind`. -/
structure JSDocParamTag where
  name : String
  typeExpression : Option JSDocTypeExpr
  isBracketed : Bool
  comment : String

structure ParamDecl where
  name : String
  type : Option TypeNode
  questionToken : Bool
  initializer : Bool
  dotDotDotToken : Bool
  pos : Option Position

/-- A top-level function declaration. `jsDocComment` is
`node.jsDoc[0].comment` (`""` when absent: a tagged declaration always has a
JSDoc block, so the `node.jsDoc[0]` access never throws for the declarations
the engine reads it on). `paramsEndPos` is the position of
`func.parameters.end`. -/
structure FuncDecl where
  name : Option String
  tags : List JSDocTag
  paramTags : List JSDocParamTag
  jsDocComment : String
  parameters : List ParamDecl
  type : Option TypeNode
  jsDocReturnType : Option TypeNode
  pos : Option Position
  paramsEndPos : Option Position

/-- One enum member: `initializer` is `initializer.getText()`; `tooltip` is
the already-stripped leading-comment text (the engine derives it from the raw
source text, which this embedding does not carry). -/
structure EnumMember where
  name : String
  initializer : Option String
  tooltip : String

structure EnumDecl where
  name : String
  tags : List JSDocTag
  members : List EnumMember
  pos : Option Position

/-- A top-level declaration of the source file. -/
inductive Decl where
  | enum (e : EnumDecl)
  | func (f : FuncDecl)

-- ---------------------------------------------------------------------------
-- Tag helpers
-- ---------------------------------------------------------------------------

def containsTag (tag : JSDocTag) (tagName : String) : Bool :=
  jsToLower tag.tagName == tagName

def findTag (tags : List JSDocTag) (tagName : String) : Option JSDocTag :=
  tags.find? (fun tag => containsTag tag tagName)

def getTagComment (tags : List JSDocTag) (tagName : String) : String :=
  match findTag tags tagName with
  | some tag => tag.comment
  | none => ""

def hasTag (tags : List JSDocTag) (tagName : String) : Bool :=
  (findTag tags tagName).isSome

def isCustomFunction (f : FuncDecl) : Bool := hasTag f.tags CUSTOM_FUNCTION
def isCustomEnum (e : EnumDecl) : Bool := hasTag e.tags CUSTOM_ENUM
def isVolatile (f : FuncDecl) : Bool := hasTag f.tags VOLATILE
def isAddressRequired (f : FuncDecl) : Bool := hasTag f.tags REQUIRESADDRESS
def isRequiresParameterAddresses (f : FuncDecl) : Bool :=
  hasTag f.tags REQUIRESPARAMETERADDRESSES
def isExcludedFromAutoComplete (f : FuncDecl) : Bool :=
  hasTag f.tags EXCLUDEFROMAUTOCOMPLETE
def isLinkedEntityLoadService (f : FuncDecl) : Bool :=
  hasTag f.tags LINKEDENTITYLOADSERVICE
def capturesCallingObject (f : FuncDecl) : Bool :=
  hasTag f.tags CAPTURESCALLINGOBJECT
def isStreaming (f : FuncDecl) (streamFunction : Bool) : Bool :=
  streamFunction || hasTag f.tags STREAMING
def isCancelableTag (f : FuncDecl) (cancelableFunction : Bool) : Bool :=
  cancelableFunction || hasTag f.tags CANCELABLE

-- ---------------------------------------------------------------------------
-- Small helpers from the source
-- ---------------------------------------------------------------------------

/-- Models `localeCompare(..., { sensitivity: "accent" }) === 0`:
case-insensitive string comparison (ASCII case folding). -/
def areStringsEqual (first second : String) : Bool :=
  jsToLower first == jsToLower second

def checkForDuplicate (list : List String) (item : String) : Bool :=
  list.foldl (fun duplicate value => if areStringsEqual value item then true else duplicate)
    false

def logError (error : String) (position : Option Position) : String :=
  match position with
  | some p => error ++ " (" ++ toString (p.line + 1) ++ "," ++ toString (p.character + 1) ++ ")"
  | none => error

def idCharOk (c : Char) : Bool := c.isAlpha || c.isDigit || c == '.' || c == '_'

/-- The source's `validateId`, returning the errors it pushes. -/
def validateId (id : String) (position : Option Position) : List String :=
  (if !(id.toList.all idCharOk) then
    let idShown := if id = "" then "Function name is invalid" else id
    [logError ("The custom function id contains invalid characters. Allowed characters are ('A-Z','a-z','0-9','.','_'):" ++ idShown) position]
   else []) ++
  (if 128 < id.length then
    [logError "The custom function id exceeds the maximum of 128 characters allowed." position]
   else [])

/-- The source's `validateName`, returning the errors it pushes. The Unicode-letter class
`\pL` of XRegExp is modelled by ASCII letters. -/
def validateName (name : String) (position : Option Position) (type : String) : List String :=
  let startsWithLetter := match name.toList with
    | [] => false
    | c :: _ => c.isAlpha
  let validName := match name.toList with
    | [] => false
    | c :: rest => c.isAlpha && rest.all idCharOk
  (if name = "" then [logError ("You need to provide a custom " ++ type ++ " name.") position]
   else []) ++
  (if !startsWithLetter then
    [logError ("The custom " ++ type ++ " name \"" ++ name ++ "\" should start with an alphabetic character.") position]
   else if !validName then
    [logError ("The custom " ++ type ++ " name \"" ++ name ++ "\" should contain only alphabetic characters, numbers (0-9), period (.), and underscore (_).") position]
   else []) ++
  (if 128 < name.length then
    [logError ("The custom " ++ type ++ " name \"" ++ name ++ "\" is too long. It must be 128 characters or less.") position]
   else [])

def normalizeCustomFunctionId (id : String) : String :=
  if id = "" then id else jsToUpper id

def normalizeLineEndings (text : String) : String :=
  if text = "" then text else ⟨stripCRAux text.toList⟩

def getDescription (f : FuncDecl) : String :=
  normalizeLineEndings f.jsDocComment

-- ---------------------------------------------------------------------------
-- JSDoc @param dictionaries
-- ---------------------------------------------------------------------------

/-- The source's `getJSDocParams`: parameter name to description. -/
def getJSDocParams (paramTags : List JSDocParamTag) : List (String × String) :=
  paramTags.foldl
    (fun m tag =>
      (tag.name,
        jsTrim (match tag.comment.toList with
                | '-' :: restc => ⟨restc⟩
                | _ => tag.comment)) :: m)
    []

/-- The string surgery of `getJSDocParamsType` on one type expression text
of the form `\x7bOuter\x7d` or `\x7bOuter<Inner>\x7d`. -/
def parseJsDocTypeText (fullText : String) : IJsDocParamType :=
  let paramType := jsSlice fullText 1 (fullText.length - 1)
  match paramType.toList.findIdx? (fun c => c == '<') with
  | some openBracket =>
    let subType := jsSlice paramType (openBracket + 1) (paramType.length - 1)
    let dimCount := countChar subType '['
    if 0 < dimCount then
      { type := jsSlice paramType 0 openBracket,
        returnType :=
          some (jsSlice subType 0 ((subType.toList.findIdx? (fun c => c == '[')).getD 0)),
        dimensionality := some (if dimCount == 1 then "scalar" else "matrix") }
    else
      { type := jsSlice paramType 0 openBracket, returnType := some subType,
        dimensionality := none }
  | none => { type := paramType, returnType := none, dimensionality := none }

/-- The source's `getJSDocParamsType`: parameter name to parsed type descriptor. -/
def getJSDocParamsType (paramTags : List JSDocParamTag) : List (String × IJsDocParamType) :=
  paramTags.foldl
    (fun m tag =>
      match tag.typeExpression with
      | some te => (tag.name, parseJsDocTypeText te.fullText) :: m
      | none => (tag.name, { type := "any", returnType := none, dimensionality := none }) :: m)
    []

/-- The source's `getJSDocParamsOptionalType`: parameter name to `isBracketed`. -/
def getJSDocParamsOptionalType (paramTags : List JSDocParamTag) : List (String × Bool) :=
  paramTags.foldl (fun m tag => (tag.name, tag.isBracketed) :: m) []

/-- Models `ts.getJSDocType` for a parameter: the type node of the matching
`@param` tag's type expression. -/
def getJSDocType (paramTags : List JSDocParamTag) (paramName : String) : Option TypeNode :=
  (paramTags.find? (fun tag => tag.name == paramName)).bind
    (fun tag => tag.typeExpression.map (fun te => te.type))

-- ---------------------------------------------------------------------------
-- Array dimensionality
-- ---------------------------------------------------------------------------

def isTypeReferenceNode : TypeNode → Bool
  | .typeReference _ _ => true
  | _ => false

def isArrayTypeNode : TypeNode → Bool
  | .arrayType _ => true
  | _ => false

structure IArrayType where
  dimensionality : Nat
  node : TypeNode

def typeNodeIsArray (node : TypeNode) : Bool :=
  if isArrayTypeNode node then true
  else
    match node with
    | .typeReference n _ => n == "Array"
    | _ => false

/-- Counts the `T[]` nesting; only ever called on array type nodes
(for a non-array node it returns depth 0 rather than the undefined
behaviour of the source). -/
def getArrayDimensionalityAndTypeForArrayTypeNode : TypeNode → IArrayType
  | .arrayType inner =>
    let r := getArrayDimensionalityAndTypeForArrayTypeNode inner
    ⟨r.dimensionality + 1, r.node⟩
  | n => ⟨0, n⟩

/-- Counts the `Array<T>` nesting (descends while the node is a reference
named `Array` with exactly one type argument). -/
def getArrayDimensionalityAndTypeForReferenceNode : TypeNode → IArrayType
  | .typeReference "Array" [arg] =>
    let r := getArrayDimensionalityAndTypeForReferenceNode arg
    ⟨r.dimensionality + 1, r.node⟩
  | n => ⟨0, n⟩

def getArrayDimensionalityAndType (node : TypeNode) : IArrayType :=
  if isArrayTypeNode node then getArrayDimensionalityAndTypeForArrayTypeNode node
  else if isTypeReferenceNode node then getArrayDimensionalityAndTypeForReferenceNode node
  else ⟨0, node⟩

def getParamDim (t : Option TypeNode) : String :=
  match t with
  | none => "scalar"
  | some t =>
    if isTypeReferenceNode t || isArrayTypeNode t then
      if 1 < (getArrayDimensionalityAndType t).dimensionality then "matrix" else "scalar"
    else "scalar"

def isRepeatingParameter (t : Option TypeNode) : Bool :=
  match t with
  | none => false
  | some t =>
    if isTypeReferenceNode t || isArrayTypeNode t then
      let array := getArrayDimensionalityAndType t
      array.dimensionality == 1 || array.dimensionality == 3
    else false

-- ---------------------------------------------------------------------------
-- getParamType
-- ---------------------------------------------------------------------------

/-- The source's `getParamType`; the second component is the list of errors pushed to
`extra.errors`. Positions of type nodes are not tracked by this embedding,
so type errors are logged without a position. -/
def getParamType (node : Option TypeNode) (basicEnums : List String)
    (customEnums : List IEnum) : IParameterType × List String :=
  match node with
  | none => ({ type := some "any", customEnumType := none, cellValueType := none }, [])
  | some node0 =>
    let node1 := if typeNodeIsArray node0 then (getArrayDimensionalityAndType node0).node
                 else node0
    match node1 with
    | .typeReference nodeTypeName _ =>
      if basicEnums.contains nodeTypeName then
        ({ type := some "any", customEnumType := none, cellValueType := none }, [])
      else
        match customEnums.find? (fun enumItem => enumItem.id == nodeTypeName) with
        | some enumItem =>
          ({ type := some enumItem.type, customEnumType := some nodeTypeName,
             cellValueType := none }, [])
        | none =>
          match CELLVALUETYPE_MAPPINGS nodeTypeName with
          | some cellValue =>
            if cellValue == "unsupported" then
              ({ type := some "any", customEnumType := none, cellValueType := none },
               [logError ("Custom function does not support cell value type: " ++ nodeTypeName) none])
            else
              ({ type := CELLVALUETYPE_TO_BASICTYPE_MAPPINGS cellValue,
                 customEnumType := none, cellValueType := some cellValue }, [])
          | none =>
            ({ type := some "any", customEnumType := none, cellValueType := none },
             [logError ("Custom function does not support type \"" ++ nodeTypeName ++ "\" as input or return parameter.") none])
    | n =>
      match TYPE_MAPPINGS n with
      | some t => ({ type := some t, customEnumType := none, cellValueType := none }, [])
      | none =>
        ({ type := none, customEnumType := none, cellValueType := none },
         [logError "Type doesn't match mappings" none])

def getParamOptional (p : ParamDecl) (jsDocParamOptionalInfo : List (String × Bool)) : Bool :=
  let isOptional := p.questionToken || p.initializer || p.dotDotDotToken
  if isOptional then true
  else (objGet jsDocParamOptionalInfo p.name).getD false

-- ---------------------------------------------------------------------------
-- Trailing-parameter role detection
-- ---------------------------------------------------------------------------

def hasStreamingInvocationParameter (param : Option ParamDecl)
    (jsDocParamTypeInfo : List (String × IJsDocParamType)) : Bool :=
  let isRef := match param with
    | some p => match p.type with
      | some t => isTypeReferenceNode t
      | none => false
    | none => false
  let jsDocSays := match param with
    | some p =>
      if p.name != "" then
        match objGet jsDocParamTypeInfo p.name with
        | some ptype => ptype.type != "" && TYPE_CUSTOM_FUNCTIONS_STREAMING (jsToLower ptype.type)
        | none => false
      else false
    | none => false
  if jsDocSays then true
  else if !isRef then false
  else
    match param with
    | some p =>
      match p.type with
      | some (.typeReference typeName _) =>
        typeName == "CustomFunctions.StreamingInvocation" ||
        typeName == "CustomFunctions.StreamingHandler" ||
        typeName == "IStreamingCustomFunctionHandler"
      | _ => false
    | none => false

def hasCancelableInvocationParameter (param : Option ParamDecl)
    (jsDocParamTypeInfo : List (String × IJsDocParamType)) : Bool :=
  let isRef := match param with
    | some p => match p.type with
      | some t => isTypeReferenceNode t
      | none => false
    | none => false
  let jsDocSays := match param with
    | some p =>
      if p.name != "" then
        match objGet jsDocParamTypeInfo p.name with
        | some ptype => ptype.type != "" && TYPE_CUSTOM_FUNCTION_CANCELABLE (jsToLower ptype.type)
        | none => false
      else false
    | none => false
  if jsDocSays then true
  else if !isRef then false
  else
    match param with
    | some p =>
      match p.type with
      | some (.typeReference typeName _) =>
        typeName == "CustomFunctions.CancelableHandler" ||
        typeName == "CustomFunctions.CancelableInvocation"
      | _ => false
    | none => false

def hasInvocationParameter (param : Option ParamDecl)
    (jsDocParamTypeInfo : List (String × IJsDocParamType)) : Bool :=
  let isRef := match param with
    | some p => match p.type with
      | some t => isTypeReferenceNode t
      | none => false
    | none => false
  let jsDocSays := match param with
    | some p =>
      if p.name != "" then
        match objGet jsDocParamTypeInfo p.name with
        | some ptype => ptype.type != "" && jsToLower ptype.type == TYPE_CUSTOM_FUNCTION_INVOCATION
        | none => false
      else false
    | none => false
  if jsDocSays then true
  else if !isRef then false
  else
    match param with
    | some p =>
      match p.type with
      | some (.typeReference typeName _) => typeName == "CustomFunctions.Invocation"
      | _ => false
    | none => false

-- ---------------------------------------------------------------------------
-- getParameters
-- ---------------------------------------------------------------------------

/-- The body of the `getParameters` loop for one parameter: the emitted
parameter record and the errors pushed while resolving it. -/
def getParameterItem (basicEnums : List String) (customEnums : List IEnum)
    (jsDocParamInfo : List (String × String)) (jsDocParamOptionalInfo : List (String × Bool))
    (paramTags : List JSDocParamTag) (p : ParamDecl) : IFunctionParameter × List String :=
  let parameterPosition := p.pos
  let name := p.name
  let parameterJSDocTypeNode := getJSDocType paramTags name
  let mismatchErrs := match parameterJSDocTypeNode, p.type with
    | some jt, some t =>
      if kindName jt != kindName t then
        [logError ("Type \x7b" ++ kindName jt ++ ":" ++ kindName t ++ "\x7d doesn't match for parameter : " ++ name) parameterPosition]
      else []
    | _, _ => []
  let typeNode := match p.type, parameterJSDocTypeNode with
    | none, some jt => some jt
    | t, _ => t
  let ptypeRes := getParamType typeNode basicEnums customEnums
  let descriptionVal := (objGet jsDocParamInfo name).getD ""
  let dim := getParamDim typeNode
  let optionalVal := getParamOptional p jsDocParamOptionalInfo
  let repeatingVal := isRepeatingParameter typeNode
  ({ name,
     description := if descriptionVal = "" then none else some descriptionVal,
     type := ptypeRes.1.type,
     cellValueType := ptypeRes.1.cellValueType,
     dimensionality := if dim == "scalar" then none else some dim,
     optional := if optionalVal then some true else none,
     repeating := if repeatingVal then some true else none,
     customEnumType := ptypeRes.1.customEnumType },
   mismatchErrs ++ ptypeRes.2)

/-- The source's `getParameters`; the second component is the list of errors pushed to
`extra.errors`. -/
def getParameters (basicEnums : List String) (customEnums : List IEnum)
    (jsDocParamInfo : List (String × String)) (jsDocParamOptionalInfo : List (String × Bool))
    (paramTags : List JSDocParamTag) (parametersToParse : List ParamDecl) :
    List IFunctionParameter × List String :=
  parametersToParse.foldl
    (fun acc p =>
      (acc.1 ++ [(getParameterItem basicEnums customEnums jsDocParamInfo jsDocParamOptionalInfo paramTags p).1],
       acc.2 ++ (getParameterItem basicEnums customEnums jsDocParamInfo jsDocParamOptionalInfo paramTags p).2))
    ([], [])

-- ---------------------------------------------------------------------------
-- getResults
-- ---------------------------------------------------------------------------

/-- Models `returnType.getFullText().trim() === "void"`: only the `void`
keyword prints as the bare text `void`. -/
def typeNodeIsVoidText : TypeNode → Bool
  | .voidKeyword => true
  | _ => false

/-- The final assembly of `getResults`: builds `resultItem`, downgrades a
cell-value result type to any (the check compares against the cell-value
variant names), then deletes the default fields. The `delete` of the type
field looks at the downgraded local variable while the kept field holds the
original value, exactly as in the source. -/
def assembleResult (resultType resultDim : Option String) : IFunctionResult :=
  let downgraded := match resultType with
    | some t => if CELLVALUETYPE_MAPPINGS_VALUES.contains t then some "any" else some t
    | none => none
  { type := if downgraded == some "any" then none else resultType,
    dimensionality := if resultDim == some "scalar" then none else resultDim }

/-- The kind-mismatch check of the `@returns` JSDoc phase: compares the
structural return type's kind against the doc return type's kind, building the
diagnostic from `(func.name as ts.Identifier).text` — which throws (TypeError)
for an anonymous function. -/
def jsdocMismatchErrs (func : FuncDecl) (returnTypeFromJSDoc : TypeNode) :
    Except String (List String) :=
  match func.type with
  | some ft =>
    if kindName ft != kindName returnTypeFromJSDoc then
      match func.name with
      | none => Except.error "TypeError: func.name is undefined"
      | some nm =>
        Except.ok [logError ("Type \x7b" ++ kindName ft ++ ":" ++ kindName returnTypeFromJSDoc ++ "\x7d doesn't match for return type : " ++ nm) none]
    else Except.ok []
  | none => Except.ok []

/-- The `@returns` JSDoc phase of `getResults` followed by final assembly. -/
def jsdocReturnPhase (func : FuncDecl) (basicEnums : List String) (customEnums : List IEnum)
    (resultType resultDim : Option String) (errs : List String) :
    Except String (IFunctionResult × List String) :=
  match func.jsDocReturnType with
  | none => .ok (assembleResult resultType resultDim, errs)
  | some returnTypeFromJSDoc =>
    (jsdocMismatchErrs func returnTypeFromJSDoc).bind
    (fun mismatchErrs =>
      let target := match returnTypeFromJSDoc with
        | .typeReference "Promise" [a] => a
        | _ => returnTypeFromJSDoc
      let ptRes := getParamType (some target) basicEnums customEnums
      .ok (assembleResult ptRes.1.type (some (getParamDim (some target))),
           errs ++ mismatchErrs ++ ptRes.2))

/-- The source's `getResults`; the second component is the list of errors pushed to
`extra.errors`. `Except.error` models a thrown TypeError. -/
def getResults (func : FuncDecl) (isStreamingFunction : Bool)
    (lastParameter : Option ParamDecl)
    (jsDocParamTypeInfo : List (String × IJsDocParamType))
    (basicEnums : List String) (customEnums : List IEnum) :
    Except String (IFunctionResult × List String) :=
  let defaultResultItem : IFunctionResult :=
    { type := some "any", dimensionality := some "scalar" }
  let lastParameterPosition : Option Position := match lastParameter with
    | some p => p.pos
    | none => none
  if isStreamingFunction then
    match lastParameter with
    | none => .error "TypeError: lastParameter is undefined"
    | some lastP =>
      match lastP.type with
      | none =>
        match objGet jsDocParamTypeInfo lastP.name with
        | none => .error "TypeError: ptype is undefined"
        | some ptype =>
          .ok ({ type := ptype.returnType,
                 dimensionality :=
                   if ptype.dimensionality == some "scalar" then none
                   else ptype.dimensionality }, [])
      | some (.typeReference _ typeArgs) =>
        match typeArgs with
        | [tyArg] =>
          let voidViolation := match func.type with
            | some rt => !(typeNodeIsVoidText rt)
            | none => false
          if voidViolation then
            .ok (defaultResultItem,
                 [logError "A streaming function should return 'void'. Use CustomFunctions.StreamingHandler.setResult() to set results." lastParameterPosition])
          else
            let ptRes := getParamType (some tyArg) basicEnums customEnums
            jsdocReturnPhase func basicEnums customEnums ptRes.1.type
              (some (getParamDim (some tyArg))) ptRes.2
        | _ =>
          .ok (defaultResultItem,
               [logError "The 'CustomFunctions.StreamingHandler' needs to be passed in a single result type (e.g., 'CustomFunctions.StreamingHandler < number >') :" lastParameterPosition])
      | some _ =>
        .ok (defaultResultItem,
             [logError "The 'CustomFunctions.StreamingHandler' needs to be passed in a single result type (e.g., 'CustomFunctions.StreamingHandler < number >') :" lastParameterPosition])
  else
    match func.type with
    | some ft =>
      let target := match ft with
        | .typeReference "Promise" [a] => a
        | _ => ft
      let ptRes := getParamType (some target) basicEnums customEnums
      jsdocReturnPhase func basicEnums customEnums ptRes.1.type
        (some (getParamDim (some target))) ptRes.2
    | none => jsdocReturnPhase func basicEnums customEnums (some "any") (some "scalar") []

-- ---------------------------------------------------------------------------
-- getOptions
-- ---------------------------------------------------------------------------

/-- The source's `getOptions`; the second component is the list of errors pushed to
`extra.errors`. -/
def getOptions (func : FuncDecl) (isStreamingFunction isCancelableFunction isInvocationFunction : Bool) :
    IFunctionOptions × List String :=
  let optionsItem : IFunctionOptions :=
    { cancelable := isCancelableTag func isCancelableFunction,
      requiresAddress := isAddressRequired func && !(isStreaming func isStreamingFunction),
      requiresStreamAddress := isAddressRequired func && isStreaming func isStreamingFunction,
      stream := isStreaming func isStreamingFunction,
      volatile := isVolatile func,
      requiresParameterAddresses :=
        isRequiresParameterAddresses func && !(isStreaming func isStreamingFunction),
      requiresStreamParameterAddresses :=
        isRequiresParameterAddresses func && isStreaming func isStreamingFunction,
      excludeFromAutoComplete := isExcludedFromAutoComplete func,
      linkedEntityLoadService := isLinkedEntityLoadService func,
      capturesCallingObject := capturesCallingObject func }
  let errs1 :=
    if isAddressRequired func || isRequiresParameterAddresses func then
      let errorParam :=
        if isAddressRequired func then "@requiresAddress" else "@requiresParameterAddresses"
      if !isStreamingFunction && !isCancelableFunction && !isInvocationFunction then
        [logError ("Since " ++ errorParam ++ " is present, the last function parameter should be of type CustomFunctions.Invocation :") func.paramsEndPos]
      else []
    else []
  let errs2 :=
    if optionsItem.linkedEntityLoadService &&
       (optionsItem.excludeFromAutoComplete || optionsItem.volatile || optionsItem.stream ||
        optionsItem.requiresAddress || optionsItem.requiresParameterAddresses ||
        optionsItem.capturesCallingObject) then
      let errorParam :=
        if optionsItem.excludeFromAutoComplete then "@excludeFromAutoComplete"
        else if optionsItem.volatile then "@volatile"
        else if optionsItem.stream then "@streaming"
        else if optionsItem.requiresAddress then "@requiresAddress"
        else if optionsItem.requiresParameterAddresses then "@requiresParameterAddresses"
        else if optionsItem.capturesCallingObject then "@capturesCallingObject"
        else ""
      [logError (errorParam ++ " cannot be used with @linkedEntityLoadService.") func.pos]
    else []
  (optionsItem, errs1 ++ errs2)

-- ---------------------------------------------------------------------------
-- Custom enum building
-- ---------------------------------------------------------------------------

/-- Consume the characters of `w` from the front of `cs`. -/
def stripLeadingWord : List Char → List Char → Option (List Char)
  | [], cs => some cs
  | _ :: _, [] => none
  | w :: ws, c :: cs => if c == w then stripLeadingWord ws cs else none

def closesAfterSpaces (cs : List Char) : Bool :=
  match cs.dropWhile isJsSpace with
  | '}' :: _ => true
  | _ => false

/-- One attempted match of the regex at the current position. -/
def matchEnumTypeHere (cs : List Char) : Option String :=
  match cs with
  | '{' :: rest =>
    let rest1 := rest.dropWhile isJsSpace
    match stripLeadingWord "string".toList rest1 with
    | some rem =>
      if closesAfterSpaces rem then some "string"
      else
        match stripLeadingWord "number".toList rest1 with
        | some rem2 => if closesAfterSpaces rem2 then some "number" else none
        | none => none
    | none =>
      match stripLeadingWord "number".toList rest1 with
      | some rem2 => if closesAfterSpaces rem2 then some "number" else none
      | none => none
  | _ => none

def findEnumTypeAux : List Char → Option String
  | [] => none
  | c :: rest =>
    match matchEnumTypeHere (c :: rest) with
    | some t => some t
    | none => findEnumTypeAux rest

/-- Models `comment.match(/\x7b\s*(string|number)\s*\x7d/)`: the captured
group of the first match, if any. -/
def findEnumTypeInComment (comment : String) : Option String :=
  findEnumTypeAux comment.toList

/-- The flag `isNumberEnum` as computed from the first member. -/
def isNumberEnumOf (e : EnumDecl) : Bool :=
  match e.members with
  | [] => true
  | firstMember :: _ =>
    match firstMember.initializer with
    | some txt => (jsToNumber txt).isSome
    | none => true

inductive EnumLoopResult where
  | consistent (values : List IEnumValue)
  | inconsistent
deriving Repr, DecidableEq

/-- The member loop of `buildSingleCustomEnum`: `Except.error` models the
`JSON.parse` SyntaxError on a malformed initializer, `inconsistent` the
early return on a member whose value type disagrees with the enum's. -/
def enumMembersLoop (isNumberEnum : Bool) (counter : Int) :
    List EnumMember → Except String EnumLoopResult
  | [] => .ok (.consistent [])
  | member :: rest =>
    match member.initializer with
    | some txt =>
      match jsonParse txt with
      | none => .error ("SyntaxError: JSON.parse: " ++ txt)
      | some value =>
        if (isNumberEnum && !typeofIsNumber value) ||
           (!isNumberEnum && !typeofIsString value) then
          .ok .inconsistent
        else
          (enumMembersLoop isNumberEnum counter rest).map
            (fun r =>
              match r with
              | .consistent vs =>
                .consistent ({ name := member.name, value := value,
                               tooltip := member.tooltip } :: vs)
              | .inconsistent => .inconsistent)
    | none =>
      let value := JsValue.num counter
      if (isNumberEnum && !typeofIsNumber value) ||
         (!isNumberEnum && !typeofIsString value) then
        .ok .inconsistent
      else
        (enumMembersLoop isNumberEnum (counter + 1) rest).map
          (fun r =>
            match r with
            | .consistent vs =>
              .consistent ({ name := member.name, value := value,
                             tooltip := member.tooltip } :: vs)
            | .inconsistent => .inconsistent)

instance {e a : Type} [DecidableEq e] [DecidableEq a] : DecidableEq (Except e a) :=
  fun x y =>
    match x, y with
    | .error u, .error v => decidable_of_iff (u = v) (by simp)
    | .ok u, .ok v => decidable_of_iff (u = v) (by simp)
    | .error _, .ok _ => isFalse (by simp)
    | .ok _, .error _ => isFalse (by simp)

/-- The running collector state of one `parseTree` call. -/
structure ParseState where
  associate : List IAssociate
  functions : List IFunction
  extras : List IFunctionExtras
  basicEnums : List String
  customEnums : List IEnum
  functionNames : List String
  metadataFunctionNames : List String
  metadataFunctionIds : List String
  metadataEnumIds : List String
deriving Repr, DecidableEq

def initialState (basicEnums : List String) : ParseState :=
  { associate := [], functions := [], extras := [], basicEnums,
    customEnums := [], functionNames := [], metadataFunctionNames := [],
    metadataFunctionIds := [], metadataEnumIds := [] }

/-- The diagnostics-only state updates of `buildSingleCustomEnum` before the
member loop: the name-validation extra, the duplicate-id extra, the enum-id
reservation, and the unknown-annotation-type extra. -/
def enumHeaderState (st : ParseState) (e : EnumDecl) : ParseState :=
  let id := e.name
  let st1 : ParseState := { st with extras := st.extras ++
      [{ errors := validateName id e.pos "enum", javascriptFunctionName := "" }] }
  let st2 : ParseState :=
    if checkForDuplicate st1.metadataEnumIds id then
      { st1 with extras := st1.extras ++
          [{ errors := [logError ("@" ++ CUSTOM_ENUM ++ " tag specifies a duplicate name: " ++ id) e.pos],
             javascriptFunctionName := "" }] }
    else st1
  let st3 : ParseState := { st2 with metadataEnumIds := st2.metadataEnumIds ++ [id] }
  let comment := getTagComment e.tags CUSTOM_ENUM
  if comment != "" && (findEnumTypeInComment comment).isNone then
    { st3 with extras := st3.extras ++
        [{ errors := [logError ("Unknown enum type defined after @" ++ CUSTOM_ENUM ++ " tag. Please use \"\x7bstring\x7d\" or \"\x7bnumber\x7d\": " ++ id) e.pos],
           javascriptFunctionName := "" }] }
  else st3

/-- The `jsDocType` of `buildSingleCustomEnum`. -/
def enumJsDocType (e : EnumDecl) : Option String :=
  let comment := getTagComment e.tags CUSTOM_ENUM
  if comment != "" then findEnumTypeInComment comment else none

/-- The condition of the early return that reports a declared enum type
contradicting the doc-comment annotation (checked only when the first member
has an initializer). -/
def enumEarlyMismatch (e : EnumDecl) : Bool :=
  (match e.members with
   | [] => false
   | firstMember :: _ => firstMember.initializer.isSome) &&
  (match enumJsDocType e with
   | some t => (isNumberEnumOf e && t != "number") || (!(isNumberEnumOf e) && t != "string")
   | none => false)

/-- The source's `buildSingleCustomEnum` (the top-level-parent check always holds for the
declarations this embedding feeds in). -/
def buildSingleCustomEnum (st : ParseState) (e : EnumDecl) : Except String ParseState :=
  if !(isCustomEnum e) || e.members.length == 0 then .ok st
  else
    let st4 := enumHeaderState st e
    if enumEarlyMismatch e then
      .ok { st4 with extras := st4.extras ++
              [{ errors := [logError ("Enum type must match the enum type in annotation: " ++ e.name) e.pos],
                 javascriptFunctionName := "" }] }
    else
      match enumMembersLoop (isNumberEnumOf e) 0 e.members with
      | .error err => .error err
      | .ok .inconsistent =>
        .ok { st4 with extras := st4.extras ++
                [{ errors := [logError ("Enum value type must be consistent: " ++ e.name) e.pos],
                   javascriptFunctionName := "" }] }
      | .ok (.consistent values) =>
        .ok { st4 with customEnums := st4.customEnums ++
                [{ id := e.name, type := if isNumberEnumOf e then "number" else "string",
                   values }] }

-- ---------------------------------------------------------------------------
-- Function building
-- ---------------------------------------------------------------------------

/-- Evaluates `functionDeclaration.name ? functionDeclaration.name.text : ""`. -/
def jsFuncName (f : FuncDecl) : String :=
  match f.name with
  | some n => n
  | none => ""

/-- The body of `buildFunctions` for one top-level function declaration. -/
def buildSingleFunction (sourceFileName : String) (st : ParseState) (f : FuncDecl) :
    Except String ParseState :=
  let position := f.pos
  let functionName := jsFuncName f
  let dupErr :=
    if checkForDuplicate st.functionNames functionName then
      [logError ("Duplicate function name: " ++ functionName) position]
    else []
  let st0 := { st with functionNames := st.functionNames ++ [functionName] }
  if !(isCustomFunction f) then .ok st0
  else
    let idName := getTagComment f.tags CUSTOM_FUNCTION
    let idNameArray := splitOnSpace idName
    let jsDocParamInfo := getJSDocParams f.paramTags
    let jsDocParamTypeInfo := getJSDocParamsType f.paramTags
    let jsDocParamOptionalInfo := getJSDocParamsOptionalType f.paramTags
    let lastParameter := f.parameters.getLast?
    let isStreamingFunction := hasStreamingInvocationParameter lastParameter jsDocParamTypeInfo
    let isCancelableFunction := hasCancelableInvocationParameter lastParameter jsDocParamTypeInfo
    let isInvocationFunction := hasInvocationParameter lastParameter jsDocParamTypeInfo
    let parametersToParse :=
      if isStreamingFunction || isCancelableFunction || isInvocationFunction then
        f.parameters.dropLast
      else f.parameters
    let parametersRes :=
      getParameters st0.basicEnums st0.customEnums jsDocParamInfo jsDocParamOptionalInfo
        f.paramTags parametersToParse
    let description := getDescription f
    let helpUrl := normalizeLineEndings (getTagComment f.tags HELPURL_PARAM)
    match getResults f isStreamingFunction lastParameter jsDocParamTypeInfo
        st0.basicEnums st0.customEnums with
    | .error e => .error e
    | .ok resultRes =>
      let optionsRes :=
        getOptions f isStreamingFunction isCancelableFunction isInvocationFunction
      let options := optionsRes.1
      let funcName := functionName
      let idFirst := idNameArray.headD ""
      let id := normalizeCustomFunctionId (if idFirst = "" then funcName else idFirst)
      let nameSecond := idNameArray.getD 1 ""
      let name := if nameSecond = "" then id else nameSecond
      let idErrs := validateId id position
      let nameErrs := validateName name position "function"
      let dupNameErr :=
        if checkForDuplicate st0.metadataFunctionNames name then
          [logError ("@customfunction tag specifies a duplicate name: " ++ name) position]
        else []
      let dupIdErr :=
        if checkForDuplicate st0.metadataFunctionIds id then
          [logError ("@customfunction tag specifies a duplicate id: " ++ id) position]
        else []
      let errors :=
        dupErr ++ parametersRes.2 ++ resultRes.2 ++ optionsRes.2 ++ idErrs ++ nameErrs ++
        dupNameErr ++ dupIdErr
      let extra : IFunctionExtras := { errors, javascriptFunctionName := functionName }
      let allFalse :=
        !options.cancelable && !options.requiresAddress && !options.requiresStreamAddress &&
        !options.stream && !options.volatile && !options.requiresParameterAddresses &&
        !options.requiresStreamParameterAddresses && !options.excludeFromAutoComplete &&
        !options.linkedEntityLoadService && !options.capturesCallingObject
      let functionMetadata : IFunction :=
        { id, name,
          description := if description = "" then none else some description,
          helpUrl := if helpUrl = "" then none else some helpUrl,
          parameters := parametersRes.1,
          result := resultRes.1,
          options := if allFalse then none else some options }
      .ok { st0 with
        metadataFunctionNames := st0.metadataFunctionNames ++ [name],
        metadataFunctionIds := st0.metadataFunctionIds ++ [id],
        associate := st0.associate ++ [{ sourceFileName, functionName, id }],
        extras := st0.extras ++ [extra],
        functions := st0.functions ++ [functionMetadata] }

-- ---------------------------------------------------------------------------
-- parseTree
-- ---------------------------------------------------------------------------

def enumDeclsOf (decls : List Decl) : List EnumDecl :=
  decls.filterMap (fun d =>
    match d with
    | .enum e => some e
    | .func _ => none)

def funcDeclsOf (decls : List Decl) : List FuncDecl :=
  decls.filterMap (fun d =>
    match d with
    | .func f => some f
    | .enum _ => none)

def foldExcept {α : Type} (f : ParseState → α → Except String ParseState) :
    ParseState → List α → Except String ParseState
  | st, [] => .ok st
  | st, d :: rest =>
    match f st d with
    | .error e => .error e
    | .ok st' => foldExcept f st' rest

/-- The source's `parseTree`: collect basic (non-custom) enum names, then custom enums,
then functions, threading one collector state across the file. -/
def parseTree (decls : List Decl) (sourceFileName : String) :
    Except String IParseTreeResult :=
  let basicEnums :=
    (enumDeclsOf decls).filterMap (fun e => if !(isCustomEnum e) then some e.name else none)
  match foldExcept buildSingleCustomEnum (initialState basicEnums) (enumDeclsOf decls) with
  | .error e => .error e
  | .ok st1 =>
    match foldExcept (buildSingleFunction sourceFileName) st1 (funcDeclsOf decls) with
    | .error e => .error e
    | .ok st2 =>
      .ok { associate := st2.associate, extras := st2.extras,
            functions := st2.functions, enums := st2.customEnums }

-- ---------------------------------------------------------------------------
-- Auxiliary definitions used by the statements below
-- ---------------------------------------------------------------------------

/-- Iterated array nesting of depth `n` over `base`. -/
def arrN : Nat → TypeNode → TypeNode
  | 0, base => base
  | n + 1, base => .arrayType (arrN n base)

/-- The number of members without an initializer among the first `i` members. -/
def countUnvaluedBefore (ms : List EnumMember) (i : Nat) : Nat :=
  ((ms.take i).filter (fun m => m.initializer.isNone)).length

/-- A `@customfunction` tag with no comment. -/
def cfTag : JSDocTag := { tagName := "customfunction", comment := "" }

/-- A `@customenum` tag with no comment. -/
def ceTag : JSDocTag := { tagName := "customenum", comment := "" }

/-- A custom function with the given declared name, no parameters, no declared
return type and no further doc annotations. -/
def minimalFunc (nm : String) : FuncDecl :=
  { name := some nm, tags := [cfTag], paramTags := [], jsDocComment := "",
    parameters := [], type := none, jsDocReturnType := none, pos := none,
    paramsEndPos := none }

/-- A parameter typed `CustomFunctions.StreamingHandler<string[]>`. -/
def streamingHandlerParam : ParamDecl :=
  { name := "handler",
    type := some (.typeReference "CustomFunctions.StreamingHandler" [.arrayType .stringKeyword]),
    questionToken := false, initializer := false, dotDotDotToken := false, pos := none }

/-- A custom function whose only (and last) parameter is
`CustomFunctions.StreamingHandler<string[]>`. -/
def cf1 : FuncDecl :=
  { name := some "streamTest", tags := [cfTag], paramTags := [], jsDocComment := "",
    parameters := [streamingHandlerParam], type := none, jsDocReturnType := none,
    pos := none, paramsEndPos := none }

/-- A custom function with declared return type `Excel.BooleanCellValue`. -/
def cf2 : FuncDecl :=
  { name := some "boolCell", tags := [cfTag], paramTags := [], jsDocComment := "",
    parameters := [], type := some (.typeReference "Excel.BooleanCellValue" []),
    jsDocReturnType := none, pos := none, paramsEndPos := none }

/-- A custom enum with one member whose initializer text `1+1` is not a valid
JSON literal (and is `NaN` under `Number(...)`). -/
def ce3 : EnumDecl :=
  { name := "BadEnum", tags := [ceTag],
    members := [{ name := "A", initializer := some "1+1", tooltip := "" }], pos := none }

/-- A custom enum whose member value types are inconsistent (a number then a
string). -/
def ce4 : EnumDecl :=
  { name := "Mixed", tags := [ceTag],
    members := [{ name := "A", initializer := some "1", tooltip := "" },
                { name := "B", initializer := some "\"x\"", tooltip := "" }], pos := none }

/-- A numeric custom enum with unvalued members around an explicitly valued
one. -/
def ce7 : EnumDecl :=
  { name := "Colors", tags := [ceTag],
    members := [{ name := "A", initializer := none, tooltip := "" },
                { name := "B", initializer := some "5", tooltip := "" },
                { name := "C", initializer := none, tooltip := "" }], pos := none }

/-- The enum record `parseTree` emits for `ce7`. -/
def ce7Enum : IEnum :=
  { id := "Colors", type := "number",
    values := [{ name := "A", value := .num 0, tooltip := "" },
               { name := "B", value := .num 5, tooltip := "" },
               { name := "C", value := .num 1, tooltip := "" }] }

/-- The state after processing `ce7` from the empty state. -/
def ce7State : ParseState :=
  { initialState [] with
      extras := [{ errors := [], javascriptFunctionName := "" }],
      metadataEnumIds := ["Colors"],
      customEnums := [ce7Enum] }

/-- A custom function carrying the `@requiresAddress` and
`@requiresParameterAddresses` tags (used to exercise the option flags). -/
def cf8 : FuncDecl :=
  { name := some "addr", tags := [cfTag,
      { tagName := "requiresaddress", comment := "" },
      { tagName := "requiresparameteraddresses", comment := "" }],
    paramTags := [], jsDocComment := "", parameters := [], type := none,
    jsDocReturnType := none, pos := none, paramsEndPos := none }

/-- A top-level function declaration without the `@customfunction` tag. -/
def f9 : FuncDecl :=
  { name := some "calc", tags := [], paramTags := [], jsDocComment := "",
    parameters := [], type := none, jsDocReturnType := none, pos := none,
    paramsEndPos := none }

/-- A custom function whose declared name equals `f9`'s up to case. -/
def g9 : FuncDecl := minimalFunc "Calc"

/-- The state after processing `f9` from the empty state. -/
def f9State : ParseState := { initialState [] with functionNames := ["calc"] }

/-- The state after processing `f9` then `g9` from the empty state. -/
def g9State : ParseState :=
  (buildSingleFunction "file.ts" f9State g9).toOption.getD (initialState [])

/-- A custom-tagged enum declaration with zero members. -/
def ce10 : EnumDecl := { name := "Empty", tags := [ceTag], members := [], pos := none }

/-- A well-formed custom enum used as part of a well-formed input file. -/
def ce3w : EnumDecl :=
  { name := "Good", tags := [ceTag],
    members := [{ name := "A", initializer := some "5", tooltip := "" },
                { name := "B", initializer := none, tooltip := "" }], pos := none }

end CustomFunctionsMetadata

namespace CustomFunctionsMetadata

-- ---------------------------------------------------------------------------
-- Helper lemmas
-- ---------------------------------------------------------------------------

lemma arrayChase_arrN (n : Nat) :
    getArrayDimensionalityAndTypeForArrayTypeNode (arrN n .numberKeyword) =
      ⟨n, .numberKeyword⟩ := by
  induction n with
  | zero => rfl
  | succ m ih => simp [arrN, getArrayDimensionalityAndTypeForArrayTypeNode, ih]

lemma objGet_nil {α : Type} (k : String) : objGet ([] : List (String × α)) k = none := rfl

lemma checkForDuplicate_nil (b : String) : checkForDuplicate [] b = false := rfl

lemma checkForDuplicate_append_singleton (l : List String) (a b : String) :
    checkForDuplicate (l ++ [a]) b = (checkForDuplicate l b || areStringsEqual a b) := by
  simp only [checkForDuplicate, List.foldl_append, List.foldl_cons, List.foldl_nil]
  cases h : areStringsEqual a b <;> simp [h]

lemma checkForDuplicate_singleton (a b : String) :
    checkForDuplicate [a] b = areStringsEqual a b := by
  simp only [checkForDuplicate, List.foldl_cons, List.foldl_nil]
  cases h : areStringsEqual a b <;> simp [h]

lemma hasStreaming_structural (p : ParamDecl)
    (hptype : p.type = some (.typeReference "CustomFunctions.StreamingHandler"
      [.arrayType .stringKeyword])) :
    hasStreamingInvocationParameter (some p) [] = true := by
  simp [hasStreamingInvocationParameter, objGet_nil, hptype, isTypeReferenceNode]

lemma hasCancelable_structural_false (p : ParamDecl)
    (hptype : p.type = some (.typeReference "CustomFunctions.StreamingHandler"
      [.arrayType .stringKeyword])) :
    hasCancelableInvocationParameter (some p) [] = false := by
  simp [hasCancelableInvocationParameter, objGet_nil, hptype, isTypeReferenceNode]

lemma hasInvocation_structural_false (p : ParamDecl)
    (hptype : p.type = some (.typeReference "CustomFunctions.StreamingHandler"
      [.arrayType .stringKeyword])) :
    hasInvocationParameter (some p) [] = false := by
  simp [hasInvocationParameter, objGet_nil, hptype, isTypeReferenceNode]

lemma getResults_streamingHandler_stringArray (f : FuncDecl) (p : ParamDecl)
    (be : List String) (ce : List IEnum)
    (hptype : p.type = some (.typeReference "CustomFunctions.StreamingHandler"
      [.arrayType .stringKeyword]))
    (hret : f.type = none) (hjsret : f.jsDocReturnType = none) :
    getResults f true (some p) [] be ce =
      .ok ({ type := some "string", dimensionality := none }, []) := by
  simp [getResults, hptype, hret, hjsret, jsdocReturnPhase, getParamType, typeNodeIsArray,
        isArrayTypeNode, getArrayDimensionalityAndType,
        getArrayDimensionalityAndTypeForArrayTypeNode, TYPE_MAPPINGS, getParamDim,
        isTypeReferenceNode, assembleResult, CELLVALUETYPE_MAPPINGS_VALUES]

lemma getParameters_foldl_length (be : List String) (ce : List IEnum)
    (jpi : List (String × String)) (jpo : List (String × Bool))
    (ptags : List JSDocParamTag) (ps : List ParamDecl) :
    ∀ acc : List IFunctionParameter × List String,
      (ps.foldl
        (fun acc p =>
          (acc.1 ++ [(getParameterItem be ce jpi jpo ptags p).1],
           acc.2 ++ (getParameterItem be ce jpi jpo ptags p).2)) acc).1.length =
        acc.1.length + ps.length := by
  induction ps with
  | nil => intro acc; simp
  | cons p ps ih =>
    intro acc
    simp only [List.foldl_cons]
    rw [ih]
    simp
    omega

lemma getParameters_length (be : List String) (ce : List IEnum)
    (jpi : List (String × String)) (jpo : List (String × Bool))
    (ptags : List JSDocParamTag) (ps : List ParamDecl) :
    (getParameters be ce jpi jpo ptags ps).1.length = ps.length := by
  have h := getParameters_foldl_length be ce jpi jpo ptags ps ([], [])
  simpa [getParameters] using h

lemma buildSingleFunction_minimal (sfn : String) (st : ParseState) (nm : String) :
    buildSingleFunction sfn st (minimalFunc nm) = .ok
      { st with
          functionNames := st.functionNames ++ [nm],
          metadataFunctionNames := st.metadataFunctionNames ++ [normalizeCustomFunctionId nm],
          metadataFunctionIds := st.metadataFunctionIds ++ [normalizeCustomFunctionId nm],
          associate := st.associate ++
            [{ sourceFileName := sfn, functionName := nm,
               id := normalizeCustomFunctionId nm }],
          extras := st.extras ++
            [{ errors :=
                 (if checkForDuplicate st.functionNames nm then
                    [logError ("Duplicate function name: " ++ nm) none] else []) ++
                 (validateId (normalizeCustomFunctionId nm) none ++
                  (validateName (normalizeCustomFunctionId nm) none "function" ++
                   ((if checkForDuplicate st.metadataFunctionNames (normalizeCustomFunctionId nm) then
                      [logError ("@customfunction tag specifies a duplicate name: " ++ normalizeCustomFunctionId nm) none]
                     else []) ++
                    (if checkForDuplicate st.metadataFunctionIds (normalizeCustomFunctionId nm) then
                      [logError ("@customfunction tag specifies a duplicate id: " ++ normalizeCustomFunctionId nm) none]
                     else [])))),
               javascriptFunctionName := nm }],
          functions := st.functions ++
            [{ id := normalizeCustomFunctionId nm, name := normalizeCustomFunctionId nm,
               description := none, helpUrl := none, parameters := [],
               result := { type := none, dimensionality := none }, options := none }] } := by
  unfold buildSingleFunction
  simp [minimalFunc, jsFuncName, getResults, jsdocReturnPhase, assembleResult,
        getOptions, getParameters, getDescription, normalizeLineEndings, getTagComment,
        findTag, containsTag, cfTag, jsToLower, hasTag, isCustomFunction,
        isStreaming, isCancelableTag, isVolatile, isAddressRequired,
        isRequiresParameterAddresses, isExcludedFromAutoComplete,
        isLinkedEntityLoadService, capturesCallingObject,
        hasStreamingInvocationParameter, hasCancelableInvocationParameter,
        hasInvocationParameter, splitOnSpace, splitOnSpaceAux,
        getJSDocParams, getJSDocParamsType, getJSDocParamsOptionalType,
        CUSTOM_FUNCTION, HELPURL_PARAM, STREAMING, CANCELABLE, VOLATILE,
        REQUIRESADDRESS, REQUIRESPARAMETERADDRESSES, EXCLUDEFROMAUTOCOMPLETE,
        LINKEDENTITYLOADSERVICE, CAPTURESCALLINGOBJECT]

lemma countUnvaluedBefore_zero (ms : List EnumMember) : countUnvaluedBefore ms 0 = 0 := by
  simp [countUnvaluedBefore]

lemma countUnvaluedBefore_cons (m : EnumMember) (rest : List EnumMember) (i : Nat) :
    countUnvaluedBefore (m :: rest) (i + 1) =
      (if m.initializer.isNone then 1 else 0) + countUnvaluedBefore rest i := by
  simp only [countUnvaluedBefore, List.take_succ_cons, List.filter_cons]
  cases h : m.initializer <;> simp [h, Nat.add_comm]

lemma enumMembersLoop_consistent_values (b : Bool) (ms : List EnumMember) :
    ∀ (c : Int) (vs : List IEnumValue),
      enumMembersLoop b c ms = .ok (.consistent vs) →
      vs.length = ms.length ∧
      ∀ (i : Nat) (hi : i < ms.length) (hv : i < vs.length),
        (ms.get ⟨i, hi⟩).initializer = none →
        (vs.get ⟨i, hv⟩).value = JsValue.num (c + (countUnvaluedBefore ms i : Int)) := by
  induction ms with
  | nil =>
    intro c vs h
    simp only [enumMembersLoop, Except.ok.injEq, EnumLoopResult.consistent.injEq] at h
    subst h
    exact ⟨rfl, by intro i hi; simp at hi⟩
  | cons m rest ih =>
    intro c vs h
    obtain ⟨mname, minit, mtip⟩ := m
    cases minit with
    | some txt =>
      simp only [enumMembersLoop] at h
      split at h
      next => cases h
      next v hjson =>
        split at h
        · simp at h
        · cases hr : enumMembersLoop b c rest with
          | error msg => rw [hr] at h; simp [Except.map] at h
          | ok r =>
            rw [hr] at h
            cases r with
            | inconsistent => simp [Except.map] at h
            | consistent vs2 =>
              simp only [Except.map, Except.ok.injEq, EnumLoopResult.consistent.injEq] at h
              subst h
              obtain ⟨hlen, hval⟩ := ih c vs2 hr
              refine ⟨by simp [hlen], ?_⟩
              intro i hi hv hu
              cases i with
              | zero => simp at hu
              | succ j =>
                simp only [List.get_cons_succ] at hu ⊢
                rw [countUnvaluedBefore_cons]
                simp only [Option.isNone_some, if_false]
                have hres := hval j (by simpa using hi) (by simpa using hv) hu
                simpa using hres
    | none =>
      simp only [enumMembersLoop] at h
      cases b with
      | false => simp [typeofIsNumber, typeofIsString] at h
      | true =>
        simp only [typeofIsNumber, typeofIsString, Bool.not_true, Bool.not_false,
          Bool.and_false, Bool.false_and, Bool.or_self, Bool.false_or, Bool.and_true,
          Bool.true_and, Bool.false_eq_true, if_false] at h
        cases hr : enumMembersLoop true (c + 1) rest with
        | error msg => rw [hr] at h; simp [Except.map] at h
        | ok r =>
          rw [hr] at h
          cases r with
          | inconsistent => simp [Except.map] at h
          | consistent vs2 =>
            simp only [Except.map, Except.ok.injEq, EnumLoopResult.consistent.injEq] at h
            subst h
            obtain ⟨hlen, hval⟩ := ih (c + 1) vs2 hr
            refine ⟨by simp [hlen], ?_⟩
            intro i hi hv hu
            cases i with
            | zero =>
              simp [countUnvaluedBefore_zero]
            | succ j =>
              simp only [List.get_cons_succ] at hu ⊢
              rw [countUnvaluedBefore_cons]
              simp only [Option.isNone_none, if_true]
              have hres := hval j (by simpa using hi) (by simpa using hv) hu
              rw [hres]
              congr 1
              push_cast
              ring

lemma enumHeaderState_customEnums (st : ParseState) (e : EnumDecl) :
    (enumHeaderState st e).customEnums = st.customEnums := by
  simp only [enumHeaderState]
  split <;> split <;> rfl

lemma enumHeaderState_functions (st : ParseState) (e : EnumDecl) :
    (enumHeaderState st e).functions = st.functions := by
  simp only [enumHeaderState]
  split <;> split <;> rfl

lemma enumHeaderState_extras (st : ParseState) (e : EnumDecl) :
    ∃ pre, (enumHeaderState st e).extras = st.extras ++ pre := by
  simp only [enumHeaderState]
  split
  · split
    · exact ⟨[{ errors := validateName e.name e.pos "enum", javascriptFunctionName := "" },
              { errors := [logError ("@" ++ CUSTOM_ENUM ++ " tag specifies a duplicate name: " ++ e.name) e.pos],
                javascriptFunctionName := "" },
              { errors := [logError ("Unknown enum type defined after @" ++ CUSTOM_ENUM ++ " tag. Please use \"\x7bstring\x7d\" or \"\x7bnumber\x7d\": " ++ e.name) e.pos],
                javascriptFunctionName := "" }], by simp⟩
    · exact ⟨[{ errors := validateName e.name e.pos "enum", javascriptFunctionName := "" },
              { errors := [logError ("Unknown enum type defined after @" ++ CUSTOM_ENUM ++ " tag. Please use \"\x7bstring\x7d\" or \"\x7bnumber\x7d\": " ++ e.name) e.pos],
                javascriptFunctionName := "" }], by simp⟩
  · split
    · exact ⟨[{ errors := validateName e.name e.pos "enum", javascriptFunctionName := "" },
              { errors := [logError ("@" ++ CUSTOM_ENUM ++ " tag specifies a duplicate name: " ++ e.name) e.pos],
                javascriptFunctionName := "" }], by simp⟩
    · exact ⟨[{ errors := validateName e.name e.pos "enum", javascriptFunctionName := "" }], rfl⟩

lemma buildSingleCustomEnum_new_enum (st st' : ParseState) (e : EnumDecl)
    (h1 : buildSingleCustomEnum st e = .ok st')
    (hgrow : st'.customEnums ≠ st.customEnums) :
    ∃ values, enumMembersLoop (isNumberEnumOf e) 0 e.members = .ok (.consistent values) ∧
      st'.customEnums = st.customEnums ++
        [{ id := e.name, type := if isNumberEnumOf e then "number" else "string",
           values := values }] := by
  simp only [buildSingleCustomEnum] at h1
  split at h1
  · cases h1
    exact absurd rfl hgrow
  · split at h1
    · cases h1
      exact absurd (enumHeaderState_customEnums st e) hgrow
    · cases hloop : enumMembersLoop (isNumberEnumOf e) 0 e.members with
      | error msg => rw [hloop] at h1; cases h1
      | ok r =>
        rw [hloop] at h1
        cases r with
        | inconsistent =>
          cases h1
          exact absurd (enumHeaderState_customEnums st e) hgrow
        | consistent values =>
          cases h1
          refine ⟨values, rfl, ?_⟩
          show (enumHeaderState st e).customEnums ++ _ = _
          rw [enumHeaderState_customEnums]


-- ---------------------------------------------------------------------------
-- Claim theorems
-- ---------------------------------------------------------------------------

/-- C1 (counterexample): for the concrete custom function whose last parameter
is structurally `CustomFunctions.StreamingHandler<string[]>`, the emitted
result is `{ type := "string" }` with the dimensionality field omitted, not
`{ type := "string", dimensionality := "matrix" }` as the claim states. -/
theorem c1_counterexample :
    (parseTree [.func cf1] "test.ts").toOption.map
        (fun r => r.functions.map (fun fn => fn.result)) =
      some [{ type := some "string", dimensionality := none }] ∧
    (parseTree [.func cf1] "test.ts").toOption.map
        (fun r => r.functions.map (fun fn => fn.result)) ≠
      some [{ type := some "string", dimensionality := some "matrix" }] := by
  constructor <;> decide

/-- C1 (amended): a custom function whose last parameter is structurally
`CustomFunctions.StreamingHandler<string[]>`, with no doc-comment parameter or
return annotations and no declared return type, emits a function whose result
has type `"string"` with the dimensionality field omitted (scalar), and whose
parameter list excludes that last parameter. -/
theorem c1_amended (sourceFileName : String) (st : ParseState) (f : FuncDecl)
    (ps : List ParamDecl) (p : ParamDecl)
    (htag : isCustomFunction f = true)
    (hparams : f.parameters = ps ++ [p])
    (hptype : p.type = some (.typeReference "CustomFunctions.StreamingHandler"
      [.arrayType .stringKeyword]))
    (hnoParamTags : f.paramTags = [])
    (hjsret : f.jsDocReturnType = none)
    (hret : f.type = none) :
    ∃ st' fn, buildSingleFunction sourceFileName st f = .ok st' ∧
      st'.functions = st.functions ++ [fn] ∧
      fn.result = { type := some "string", dimensionality := none } ∧
      fn.parameters.length = ps.length := by
  unfold buildSingleFunction
  rw [hparams, hnoParamTags]
  simp only [htag, Bool.not_true, Bool.false_eq_true, if_false,
    List.getLast?_concat, List.dropLast_concat]
  rw [show getJSDocParamsType [] = [] from rfl]
  rw [hasStreaming_structural p hptype, hasCancelable_structural_false p hptype,
      hasInvocation_structural_false p hptype]
  simp only [Bool.true_or, if_true]
  rw [getResults_streamingHandler_stringArray f p st.basicEnums st.customEnums hptype hret hjsret]
  refine ⟨_, _, rfl, rfl, rfl, ?_⟩
  exact getParameters_length _ _ _ _ _ _

theorem c1_amended_witness :
    ∃ st' fn, buildSingleFunction "test.ts" (initialState []) cf1 = .ok st' ∧
      st'.functions = (initialState []).functions ++ [fn] ∧
      fn.result = { type := some "string", dimensionality := none } ∧
      fn.parameters.length = ([] : List ParamDecl).length :=
  c1_amended "test.ts" (initialState []) cf1 [] streamingHandlerParam (by decide) rfl rfl rfl
    rfl rfl

/-- C2: evaluating the engine at the failing input: a custom function with
declared return type `Excel.BooleanCellValue` emits `result.type = "boolean"`.
The downgrade-to-any check compares the resolved basic type against the
cell-value variant names, so it never fires, contradicting the claim (and the
code comment "We convert cell value types to any"). -/
theorem c2_code_evaluation :
    (parseTree [.func cf2] "test.ts").toOption.map
        (fun r => r.functions.map (fun fn => fn.result)) =
      some [{ type := some "boolean", dimensionality := none }] := by decide

/-- C3 (counterexample): a custom enum member initializer that is not valid
JSON makes the extraction throw (`JSON.parse` SyntaxError) instead of
collecting a diagnostic. -/
theorem c3_counterexample :
    parseTree [.enum ce3] "test.ts" = .error "SyntaxError: JSON.parse: 1+1" := by decide

/-- C4 (counterexample): a custom enum whose member value types are
inconsistent produces a diagnostic but no enum record (`enums` is empty). -/
theorem c4_counterexample :
    (parseTree [.enum ce4] "test.ts").toOption.map
        (fun r => (r.enums, r.extras.map (fun x => x.errors))) =
      some ([], [[], ["Enum value type must be consistent: Mixed"]]) := by decide

/-- C4 (amended): a custom enum whose member value types are inconsistent
produces its diagnostics (ending in the inconsistency error) but no enum
record, and processing continues with the remaining declarations from the
updated state. -/
theorem c4_amended (st : ParseState) (e : EnumDecl) (rest : List EnumDecl)
    (htag : isCustomEnum e = true)
    (hne : e.members.length ≠ 0)
    (hcomment : getTagComment e.tags CUSTOM_ENUM = "")
    (hinc : enumMembersLoop (isNumberEnumOf e) 0 e.members = .ok .inconsistent) :
    ∃ st', buildSingleCustomEnum st e = .ok st' ∧
      st'.customEnums = st.customEnums ∧
      st'.functions = st.functions ∧
      st'.extras = (enumHeaderState st e).extras ++
        [{ errors := [logError ("Enum value type must be consistent: " ++ e.name) e.pos],
           javascriptFunctionName := "" }] ∧
      (∃ pre, (enumHeaderState st e).extras = st.extras ++ pre) ∧
      foldExcept buildSingleCustomEnum st (e :: rest) =
        foldExcept buildSingleCustomEnum st' rest := by
  have hguard : (!(isCustomEnum e) || e.members.length == 0) = false := by
    simp [htag, hne]
  have hnomis : enumEarlyMismatch e = false := by
    simp [enumEarlyMismatch, enumJsDocType, hcomment]
  have hbuild : buildSingleCustomEnum st e = .ok
      { enumHeaderState st e with
          extras := (enumHeaderState st e).extras ++
            [{ errors := [logError ("Enum value type must be consistent: " ++ e.name) e.pos],
               javascriptFunctionName := "" }] } := by
    unfold buildSingleCustomEnum
    rw [hguard, hnomis, hinc]
    simp
  refine ⟨_, hbuild, ?_, ?_, rfl, enumHeaderState_extras st e, ?_⟩
  · exact enumHeaderState_customEnums st e
  · exact enumHeaderState_functions st e
  · simp [foldExcept, hbuild]

theorem c4_amended_witness :
    ∃ st', buildSingleCustomEnum (initialState []) ce4 = .ok st' ∧
      st'.customEnums = (initialState []).customEnums ∧
      st'.functions = (initialState []).functions ∧
      st'.extras = (enumHeaderState (initialState []) ce4).extras ++
        [{ errors := [logError ("Enum value type must be consistent: " ++ ce4.name) ce4.pos],
           javascriptFunctionName := "" }] ∧
      (∃ pre, (enumHeaderState (initialState []) ce4).extras = (initialState []).extras ++ pre) ∧
      foldExcept buildSingleCustomEnum (initialState []) (ce4 :: []) =
        foldExcept buildSingleCustomEnum st' [] :=
  c4_amended (initialState []) ce4 [] (by decide) (by decide) (by decide) (by decide)

/-- C5 (counterexample): two custom functions `foo` and `Foo` produce three
duplicate diagnostics on the second declaration (two mentioning a duplicate
name and one a duplicate id), not exactly one duplicate-name diagnostic. -/
theorem c5_counterexample :
    (parseTree [.func (minimalFunc "foo"), .func (minimalFunc "Foo")] "test.ts").toOption.map
        (fun r => r.extras.map (fun x => x.errors)) =
      some [[],
            ["Duplicate function name: Foo",
             "@customfunction tag specifies a duplicate name: FOO",
             "@customfunction tag specifies a duplicate id: FOO"]] := by decide

/-- C5 (amended): two custom functions whose declared names differ only in
case produce exactly three duplicate diagnostics on the second declaration:
two duplicate-name diagnostics (one from the declared-name check and one from
the metadata-name check) plus one duplicate-id diagnostic. -/
theorem c5_amended (n1 n2 : String)
    (hdup1 : areStringsEqual n1 n2 = true)
    (hdup2 : areStringsEqual (normalizeCustomFunctionId n1) (normalizeCustomFunctionId n2) = true)
    (hid1 : validateId (normalizeCustomFunctionId n1) none = [])
    (hname1 : validateName (normalizeCustomFunctionId n1) none "function" = [])
    (hid2 : validateId (normalizeCustomFunctionId n2) none = [])
    (hname2 : validateName (normalizeCustomFunctionId n2) none "function" = []) :
    (parseTree [.func (minimalFunc n1), .func (minimalFunc n2)] "file.ts").toOption.map
        (fun r => r.extras.map (fun x => x.errors)) =
      some [[],
            ["Duplicate function name: " ++ n2,
             "@customfunction tag specifies a duplicate name: " ++ normalizeCustomFunctionId n2,
             "@customfunction tag specifies a duplicate id: " ++ normalizeCustomFunctionId n2]] := by
  simp only [parseTree, enumDeclsOf, funcDeclsOf, List.filterMap, foldExcept]
  rw [buildSingleFunction_minimal]
  simp only [foldExcept]
  rw [buildSingleFunction_minimal]
  simp only [foldExcept]
  simp [initialState, checkForDuplicate_nil, checkForDuplicate_singleton,
        hdup1, hdup2, hid1, hname1, hid2, hname2, logError]
  exact ⟨_, rfl, rfl⟩

theorem c5_amended_witness :
    (parseTree [.func (minimalFunc "foo"), .func (minimalFunc "Foo")] "file.ts").toOption.map
        (fun r => r.extras.map (fun x => x.errors)) =
      some [[],
            ["Duplicate function name: " ++ "Foo",
             "@customfunction tag specifies a duplicate name: " ++ normalizeCustomFunctionId "Foo",
             "@customfunction tag specifies a duplicate id: " ++ normalizeCustomFunctionId "Foo"]] :=
  c5_amended "foo" "Foo" (by decide) (by decide) (by decide) (by decide) (by decide) (by decide)

/-- C6: a parameter typed with an `n`-fold array of `number` is repeating
exactly when the nesting depth is 1 or 3, and has dimensionality `matrix`
exactly when the depth exceeds 1 (depth 1 is scalar with repeating, depth 2 is
matrix without repeating, depth 3 is matrix with repeating). -/
theorem c6_array_depth_repeating_dimensionality (n : Nat) :
    isRepeatingParameter (some (arrN n .numberKeyword)) = (n == 1 || n == 3) ∧
    getParamDim (some (arrN n .numberKeyword)) = (if 1 < n then "matrix" else "scalar") := by
  cases n with
  | zero => exact ⟨rfl, rfl⟩
  | succ m =>
    have h := arrayChase_arrN (m + 1)
    have hguard : isArrayTypeNode (arrN (m + 1) .numberKeyword) = true := rfl
    have hne : isTypeReferenceNode (arrN (m + 1) .numberKeyword) = false := rfl
    constructor
    · simp only [isRepeatingParameter, getArrayDimensionalityAndType, hguard, hne,
        Bool.false_or, if_true, h]
    · simp only [getParamDim, getArrayDimensionalityAndType, hguard, hne,
        Bool.true_or, Bool.false_or, if_true, h]

theorem c6_witness :
    isRepeatingParameter (some (arrN 3 .numberKeyword)) = (3 == 1 || 3 == 3) ∧
    getParamDim (some (arrN 3 .numberKeyword)) = (if 1 < 3 then "matrix" else "scalar") :=
  c6_array_depth_repeating_dimensionality 3

/-- C7: in every enum record that `buildSingleCustomEnum` adds to the
collector state, a member without an initializer receives the numeric value
equal to the number of unvalued members before it (so with no initializers at
all, the Nth member receives value N), independent of explicitly valued
siblings. -/
theorem c7_enum_sequential_defaults (st st' : ParseState) (e : EnumDecl) (r : IEnum)
    (h1 : buildSingleCustomEnum st e = .ok st')
    (h2 : st'.customEnums = st.customEnums ++ [r])
    (i : Nat) (hi : i < e.members.length) (hv : i < r.values.length)
    (hu : (e.members.get ⟨i, hi⟩).initializer = none) :
    (r.values.get ⟨i, hv⟩).value = JsValue.num (countUnvaluedBefore e.members i) := by
  have hgrow : st'.customEnums ≠ st.customEnums := by
    rw [h2]
    intro hcontra
    have hlen := congrArg List.length hcontra
    simp at hlen
  obtain ⟨values, hloop, hEnums⟩ := buildSingleCustomEnum_new_enum st st' e h1 hgrow
  rw [h2] at hEnums
  have hr : r = { id := e.name, type := if isNumberEnumOf e then "number" else "string",
                  values := values } := by
    have hlist := List.append_cancel_left hEnums
    simpa using hlist
  subst hr
  obtain ⟨hlen, hval⟩ := enumMembersLoop_consistent_values (isNumberEnumOf e) e.members 0 values hloop
  have hres := hval i hi (by simpa using hv) hu
  simpa using hres

theorem c7_witness :
    (ce7Enum.values.get ⟨2, (by decide : 2 < ce7Enum.values.length)⟩).value =
      JsValue.num (countUnvaluedBefore ce7.members 2) :=
  c7_enum_sequential_defaults (initialState []) ce7State ce7 ce7Enum (by decide) (by decide)
    2 (by decide) (by decide) (by decide)

/-- C8: in the emitted options block, `requiresAddress` and
`requiresStreamAddress` are never both set, `requiresParameterAddresses` and
`requiresStreamParameterAddresses` are never both set, and for a streaming
function an address-requiring tag sets only the stream variant of the flag. -/
theorem c8_address_flags_exclusive (f : FuncDecl)
    (isStreamingFunction isCancelableFunction isInvocationFunction : Bool) :
    ((getOptions f isStreamingFunction isCancelableFunction isInvocationFunction).1.requiresAddress &&
     (getOptions f isStreamingFunction isCancelableFunction isInvocationFunction).1.requiresStreamAddress) = false ∧
    ((getOptions f isStreamingFunction isCancelableFunction isInvocationFunction).1.requiresParameterAddresses &&
     (getOptions f isStreamingFunction isCancelableFunction isInvocationFunction).1.requiresStreamParameterAddresses) = false ∧
    (isStreaming f isStreamingFunction = true →
      (getOptions f isStreamingFunction isCancelableFunction isInvocationFunction).1.requiresAddress = false ∧
      (getOptions f isStreamingFunction isCancelableFunction isInvocationFunction).1.requiresParameterAddresses = false) := by
  refine ⟨?_, ?_, ?_⟩ <;>
    simp only [getOptions] <;>
    cases hs : isStreaming f isStreamingFunction <;>
    cases ha : isAddressRequired f <;>
    cases hp : isRequiresParameterAddresses f <;>
    simp [hs, ha, hp]

theorem c8_witness :
    ((getOptions cf8 true false false).1.requiresAddress &&
     (getOptions cf8 true false false).1.requiresStreamAddress) = false ∧
    ((getOptions cf8 true false false).1.requiresParameterAddresses &&
     (getOptions cf8 true false false).1.requiresStreamParameterAddresses) = false ∧
    ((getOptions cf8 true false false).1.requiresAddress = false ∧
     (getOptions cf8 true false false).1.requiresParameterAddresses = false) :=
  ⟨(c8_address_flags_exclusive cf8 true false false).1,
   (c8_address_flags_exclusive cf8 true false false).2.1,
   (c8_address_flags_exclusive cf8 true false false).2.2 (by decide)⟩

/-- C10: a custom-tagged enum declaration with zero members is skipped
entirely: it leaves the collector state (records, diagnostics, reserved enum
ids) unchanged. -/
theorem c10_empty_custom_enum_skipped (st : ParseState) (e : EnumDecl)
    (_htag : isCustomEnum e = true) (hempty : e.members = []) :
    buildSingleCustomEnum st e = .ok st := by
  unfold buildSingleCustomEnum
  rw [hempty]
  simp

theorem c10_witness :
    buildSingleCustomEnum (initialState []) ce10 = .ok (initialState []) :=
  c10_empty_custom_enum_skipped (initialState []) ce10 (by decide) rfl

end CustomFunctionsMetadata

namespace CustomFunctionsMetadata

/-- C9: a top-level function declaration without the custom-function tag still
reserves its declared name (and contributes no record and no diagnostics), so
a later custom function with a case-insensitively equal name receives the
duplicate-function-name diagnostic. -/
theorem c9_untagged_function_reserves_name (sourceFileName : String)
    (st st1 st2 : ParseState) (f g : FuncDecl)
    (hf : isCustomFunction f = false)
    (h1 : buildSingleFunction sourceFileName st f = .ok st1)
    (hg : isCustomFunction g = true)
    (hname : areStringsEqual (jsFuncName f) (jsFuncName g) = true)
    (h2 : buildSingleFunction sourceFileName st1 g = .ok st2) :
    st1 = { st with functionNames := st.functionNames ++ [jsFuncName f] } ∧
    ∃ extra, st2.extras = st1.extras ++ [extra] ∧
      logError ("Duplicate function name: " ++ jsFuncName g) g.pos ∈ extra.errors := by
  have hst1 : st1 = { st with functionNames := st.functionNames ++ [jsFuncName f] } := by
    simp only [buildSingleFunction, hf, Bool.not_false, if_true, Except.ok.injEq] at h1
    exact h1.symm
  subst hst1
  have hdup : checkForDuplicate (st.functionNames ++ [jsFuncName f]) (jsFuncName g) = true := by
    rw [checkForDuplicate_append_singleton, hname]
    simp
  refine ⟨rfl, ?_⟩
  simp only [buildSingleFunction, hg, Bool.not_true, Bool.false_eq_true, if_false] at h2
  split at h2
  · cases h2
  · cases h2
    refine ⟨_, rfl, ?_⟩
    simp [hdup]

end CustomFunctionsMetadata

namespace CustomFunctionsMetadata

theorem c9_witness :
    f9State = { initialState [] with
      functionNames := (initialState []).functionNames ++ [jsFuncName f9] } ∧
    ∃ extra, g9State.extras = f9State.extras ++ [extra] ∧
      logError ("Duplicate function name: " ++ jsFuncName g9) g9.pos ∈ extra.errors :=
  c9_untagged_function_reserves_name "file.ts" (initialState []) f9State g9State f9 g9
    (by decide) (by decide) (by decide) (by decide) (by decide)

lemma enumMembersLoop_no_throw (b : Bool) (ms : List EnumMember)
    (h : ∀ m ∈ ms, ∀ txt, m.initializer = some txt → (jsonParse txt).isSome) :
    ∀ c, ∃ r, enumMembersLoop b c ms = .ok r := by
  induction ms with
  | nil => intro c; exact ⟨_, rfl⟩
  | cons m rest ih =>
    intro c
    have hrest : ∀ m' ∈ rest, ∀ txt, m'.initializer = some txt → (jsonParse txt).isSome :=
      fun m' hm' => h m' (List.mem_cons_of_mem m hm')
    cases hminit : m.initializer with
    | some txt =>
      have hjson := h m (List.mem_cons_self m rest) txt hminit
      obtain ⟨v, hv⟩ := Option.isSome_iff_exists.mp hjson
      simp only [enumMembersLoop, hminit, hv]
      split
      · exact ⟨_, rfl⟩
      · obtain ⟨r, hr⟩ := ih hrest c
        rw [hr]
        exact ⟨_, rfl⟩
    | none =>
      simp only [enumMembersLoop, hminit]
      split
      · exact ⟨_, rfl⟩
      · obtain ⟨r, hr⟩ := ih hrest (c + 1)
        rw [hr]
        exact ⟨_, rfl⟩

lemma buildSingleCustomEnum_no_throw (st : ParseState) (e : EnumDecl)
    (h : ∀ m ∈ e.members, ∀ txt, m.initializer = some txt → (jsonParse txt).isSome) :
    ∃ st', buildSingleCustomEnum st e = .ok st' := by
  unfold buildSingleCustomEnum
  split
  · exact ⟨_, rfl⟩
  · split
    · exact ⟨_, rfl⟩
    · obtain ⟨r, hr⟩ := enumMembersLoop_no_throw (isNumberEnumOf e) e.members h 0
      rw [hr]
      cases r with
      | consistent values => exact ⟨_, rfl⟩
      | inconsistent => exact ⟨_, rfl⟩

end CustomFunctionsMetadata

namespace CustomFunctionsMetadata

lemma exceptIsOk_exists {α : Type} (x : Except String α) (h : exceptIsOk x = true) :
    ∃ out, x = .ok out := by
  cases x with
  | ok v => exact ⟨v, rfl⟩
  | error e => simp [exceptIsOk] at h

lemma jsdocMismatchErrs_isOk (f : FuncDecl) (rtj : TypeNode) (hname : f.name.isSome) :
    exceptIsOk (jsdocMismatchErrs f rtj) = true := by
  obtain ⟨nm, hnm⟩ := Option.isSome_iff_exists.mp hname
  unfold jsdocMismatchErrs
  split
  · split
    · rw [hnm]
      rfl
    · rfl
  · rfl

lemma jsdocReturnPhase_isOk (f : FuncDecl) (be : List String) (ce : List IEnum)
    (rt rd : Option String) (errs : List String)
    (hname : f.name.isSome) :
    exceptIsOk (jsdocReturnPhase f be ce rt rd errs) = true := by
  unfold jsdocReturnPhase
  split
  · rfl
  next rtj heq =>
    obtain ⟨ms, hms⟩ := exceptIsOk_exists _ (jsdocMismatchErrs_isOk f rtj hname)
    rw [hms]
    rfl

lemma hasStreaming_none_isSome (p : ParamDecl) (info : List (String × IJsDocParamType))
    (hp : p.type = none)
    (h : hasStreamingInvocationParameter (some p) info = true) :
    (objGet info p.name).isSome := by
  simp only [hasStreamingInvocationParameter, hp] at h
  cases hobj : objGet info p.name with
  | none => rw [hobj] at h; simp at h
  | some ptype => simp

lemma hasStreaming_none_param (info : List (String × IJsDocParamType)) :
    hasStreamingInvocationParameter none info = false := rfl

lemma getResults_isOk (f : FuncDecl) (lastP : Option ParamDecl)
    (info : List (String × IJsDocParamType)) (be : List String) (ce : List IEnum)
    (hname : f.name.isSome) :
    exceptIsOk (getResults f (hasStreamingInvocationParameter lastP info) lastP info be ce) =
      true := by
  cases hs : hasStreamingInvocationParameter lastP info with
  | false =>
    unfold getResults
    rw [if_neg (by simp)]
    split
    · exact jsdocReturnPhase_isOk f be ce _ _ _ hname
    · exact jsdocReturnPhase_isOk f be ce _ _ _ hname
  | true =>
    cases lastP with
    | none => rw [hasStreaming_none_param] at hs; cases hs
    | some p =>
      cases hp : p.type with
      | none =>
        have hobj := hasStreaming_none_isSome p info hp hs
        obtain ⟨ptype, hptype⟩ := Option.isSome_iff_exists.mp hobj
        simp [getResults, hp, hptype, exceptIsOk]
      | some t =>
        cases t with
        | typeReference nm args =>
          cases args with
          | nil => simp [getResults, hp, exceptIsOk]
          | cons a rest =>
            cases rest with
            | nil =>
              unfold getResults
              rw [if_pos rfl]
              simp only [hp]
              split
              · rfl
              · exact jsdocReturnPhase_isOk f be ce _ _ _ hname
            | cons b rest2 => simp [getResults, hp, exceptIsOk]
        | numberKeyword => simp [getResults, hp, exceptIsOk]
        | stringKeyword => simp [getResults, hp, exceptIsOk]
        | booleanKeyword => simp [getResults, hp, exceptIsOk]
        | anyKeyword => simp [getResults, hp, exceptIsOk]
        | unionType => simp [getResults, hp, exceptIsOk]
        | tupleType => simp [getResults, hp, exceptIsOk]
        | enumKeyword => simp [getResults, hp, exceptIsOk]
        | objectKeyword => simp [getResults, hp, exceptIsOk]
        | voidKeyword => simp [getResults, hp, exceptIsOk]
        | unknownKeyword => simp [getResults, hp, exceptIsOk]
        | arrayType elem => simp [getResults, hp, exceptIsOk]

end CustomFunctionsMetadata

namespace CustomFunctionsMetadata

lemma buildSingleFunction_no_throw (sfn : String) (st : ParseState) (f : FuncDecl)
    (hname : f.name.isSome) :
    ∃ st', buildSingleFunction sfn st f = .ok st' := by
  simp only [buildSingleFunction]
  split
  · exact ⟨_, rfl⟩
  · obtain ⟨out, hout⟩ := exceptIsOk_exists _
      (getResults_isOk f f.parameters.getLast? (getJSDocParamsType f.paramTags)
        st.basicEnums st.customEnums hname)
    rw [hout]
    exact ⟨_, rfl⟩

lemma foldExcept_no_throw {α : Type} (f : ParseState → α → Except String ParseState)
    (l : List α) (h : ∀ st a, a ∈ l → ∃ st', f st a = .ok st') :
    ∀ st, ∃ st', foldExcept f st l = .ok st' := by
  induction l with
  | nil => intro st; exact ⟨st, rfl⟩
  | cons a rest ih =>
    intro st
    obtain ⟨st1, h1⟩ := h st a (List.mem_cons_self a rest)
    obtain ⟨st2, h2⟩ := ih (fun st' b hb => h st' b (List.mem_cons_of_mem a hb)) st1
    refine ⟨st2, ?_⟩
    simp only [foldExcept, h1]
    exact h2

/-- C3 (amended): the extraction terminates normally and returns a complete
result with a full diagnostics list whenever every custom/basic enum member
initializer parses as a JSON literal and every function declaration is named;
an initializer that is not valid JSON makes `JSON.parse` throw, aborting the
extraction. -/
theorem c3_amended (decls : List Decl) (sourceFileName : String)
    (hinit : ∀ e ∈ enumDeclsOf decls, ∀ m ∈ e.members, ∀ txt,
      m.initializer = some txt → (jsonParse txt).isSome)
    (hnamed : ∀ f ∈ funcDeclsOf decls, f.name.isSome) :
    ∃ r, parseTree decls sourceFileName = .ok r := by
  apply exceptIsOk_exists
  simp only [parseTree]
  split
  · next msg heq =>
    obtain ⟨st1, h1⟩ := foldExcept_no_throw buildSingleCustomEnum (enumDeclsOf decls)
      (fun st e he => buildSingleCustomEnum_no_throw st e (hinit e he)) (initialState _)
    rw [h1] at heq
    cases heq
  · next st1 heq =>
    split
    · next msg heq2 =>
      obtain ⟨st2, h2⟩ := foldExcept_no_throw (buildSingleFunction sourceFileName)
        (funcDeclsOf decls)
        (fun st f hf => buildSingleFunction_no_throw sourceFileName st f (hnamed f hf)) st1
      rw [h2] at heq2
      cases heq2
    · rfl

theorem c3_amended_witness :
    ∃ r, parseTree [.enum ce3w, .func (minimalFunc "fn1")] "file.ts" = .ok r :=
  c3_amended _ _
    (by
      intro e he m hm txt htxt
      simp only [enumDeclsOf, List.filterMap, List.mem_singleton] at he
      subst he
      simp only [ce3w, List.mem_cons, List.mem_singleton] at hm
      rcases hm with hm | hm | hm
      · subst hm
        simp only [Option.some.injEq] at htxt
        subst htxt
        decide
      · subst hm
        simp at htxt
      · simp at hm)
    (by
      intro f hf
      simp only [funcDeclsOf, List.filterMap, List.mem_singleton] at hf
      subst hf
      simp [minimalFunc])

end CustomFunctionsMetadata
